import Mathlib

/-!
Shallow embedding of the SportBeacon Unreal UI classes
(`src/unreal/Source/SportBeacon/*.cpp`) and verification of the claims
about them.

Modelling conventions, applied uniformly:
* `FString` is `String`; `float` is `ℚ` except where IEEE special values
  matter (the challenge-card progress ratio, which divides by a possibly
  zero target; there a dedicated type `FFloat` with `nan` and signed
  infinities is used, with finite arithmetic exact — the claims settled
  over it are insensitive to rounding, they only concern clamping and
  special values); `int32` is `ℤ`.
* `TArray<T>` is `List T`; `TMap<FString, T>` is an association list
  `List (String × T)` with `TMap::Add` replace-or-append semantics and
  `FindRef` as lookup.
* Engine objects held by pointer (capture components, media player,
  widgets bound by name) are modelled by `Option`/`Bool` presence plus
  the fields that the code reads or writes.
* Delegate broadcasts are modelled as events appended to a log inside
  the state, so "broadcasts X" becomes "appends X to the event log".
* Nondeterministic engine operations — `FDateTime::Now()`, actor
  spawning (`SpawnActor` may return null), the map projection
  `LatLongToWorldLocation` (transcendental float math) and the
  indeterminate value of a default-constructed `FVector2D` — are taken
  as explicit parameters of the functions that use them.
-/

namespace SportBeacon

/-! ## Coaching flow (`CoachingFlowWidget.h/.cpp`) -/

/-- `ECoachingFlowState` from `CoachingFlowWidget.h`. -/
inductive ECoachingFlowState : Type
  | Initial
  | PerformanceReview
  | WeaknessIdentification
  | DrillRecommendation
  | WorkoutPlan
  | MealPlan
  | LocationSuggestion
  | ProgressSummary
deriving DecidableEq, Repr

/-- `FCoachingMessage` from `CoachingFlowWidget.h`; `Timestamp` is an
abstract tick (`FDateTime` value supplied by the environment). -/
structure FCoachingMessage : Type where
  SenderName : String
  MessageText : String
  MediaURL : String
  bIsCoach : Bool
  Timestamp : Nat
deriving DecidableEq, Repr

/-- The `FCoachingMessage()` default constructor: empty strings,
`bIsCoach = false`, `Timestamp = FDateTime::Now()` (passed in as `now`). -/
def FCoachingMessage.mkDefault (now : Nat) : FCoachingMessage :=
  { SenderName := "", MessageText := "", MediaURL := "", bIsCoach := false
    Timestamp := now }

/-- Delegate broadcasts observable from `UCoachingFlowWidget`. -/
inductive CoachingEvent : Type
  | flowStateChanged (NewState : ECoachingFlowState)
  | messageReceived (Message : FCoachingMessage)
deriving DecidableEq, Repr

/-- The claim-relevant state of `UCoachingFlowWidget`: the private fields
`CurrentState` and `MessageHistory`, plus the log of delegate broadcasts. -/
structure UCoachingFlowWidget : Type where
  CurrentState : ECoachingFlowState
  MessageHistory : List FCoachingMessage
  events : List CoachingEvent
deriving DecidableEq, Repr

/-- `UCoachingFlowWidget::AddMessageToUI`: appends to `MessageHistory` and
broadcasts `OnMessageReceived` (media display and scrolling touch only
engine widgets). -/
def UCoachingFlowWidget.AddMessageToUI (w : UCoachingFlowWidget)
    (Message : FCoachingMessage) : UCoachingFlowWidget :=
  { w with MessageHistory := w.MessageHistory ++ [Message]
           events := w.events ++ [CoachingEvent.messageReceived Message] }

/-- `UCoachingFlowWidget::UpdateFlowState`: sets `CurrentState` and
broadcasts `OnFlowStateChanged`. -/
def UCoachingFlowWidget.UpdateFlowState (w : UCoachingFlowWidget)
    (NewState : ECoachingFlowState) : UCoachingFlowWidget :=
  { w with CurrentState := NewState
           events := w.events ++ [CoachingEvent.flowStateChanged NewState] }

/-- `UCoachingFlowWidget::StartCoachingFlow`. -/
def UCoachingFlowWidget.StartCoachingFlow (now : Nat)
    (w : UCoachingFlowWidget) : UCoachingFlowWidget :=
  let w := { w with MessageHistory := []
                    CurrentState := ECoachingFlowState.Initial }
  let WelcomeMessage :=
    { FCoachingMessage.mkDefault now with
        SenderName := "Coach AI"
        MessageText := "Welcome to your personalized coaching session! Let's start by reviewing your recent performance. How have your last few games been?"
        bIsCoach := true }
  let w := w.AddMessageToUI WelcomeMessage
  w.UpdateFlowState ECoachingFlowState.PerformanceReview

/-- `UCoachingFlowWidget::ProcessUserInput` (the `SaveConversationState`
call at the end only writes a file). The `switch` on `CurrentState` sets
the response text, advances the flow state for the six scripted states,
and in every case appends the response through `AddMessageToUI`. -/
def UCoachingFlowWidget.ProcessUserInput (now : Nat)
    (w : UCoachingFlowWidget) (_Input : String) : UCoachingFlowWidget :=
  let Response :=
    { FCoachingMessage.mkDefault now with
        SenderName := "Coach AI", bIsCoach := true }
  match w.CurrentState with
  | ECoachingFlowState.PerformanceReview =>
      let Response := { Response with
        MessageText := "I understand. Based on your performance data and what you've shared, let's identify areas where we can improve. What specific aspects of your game do you feel need work?" }
      (w.UpdateFlowState ECoachingFlowState.WeaknessIdentification).AddMessageToUI Response
  | ECoachingFlowState.WeaknessIdentification =>
      let Response := { Response with
        MessageText := "Thank you for sharing. I'll recommend some specific drills tailored to address these areas. Would you like to see them now?"
        MediaURL := "https://sportbeacon.cdn/drills/overview.mp4" }
      (w.UpdateFlowState ECoachingFlowState.DrillRecommendation).AddMessageToUI Response
  | ECoachingFlowState.DrillRecommendation =>
      let Response := { Response with
        MessageText := "Great! Now let's create a comprehensive workout plan to incorporate these drills. How many days per week can you commit to training?" }
      (w.UpdateFlowState ECoachingFlowState.WorkoutPlan).AddMessageToUI Response
  | ECoachingFlowState.WorkoutPlan =>
      let Response := { Response with
        MessageText := "Perfect. To support your training, let's discuss nutrition. Would you like to see a customized meal plan?" }
      (w.UpdateFlowState ECoachingFlowState.MealPlan).AddMessageToUI Response
  | ECoachingFlowState.MealPlan =>
      let Response := { Response with
        MessageText := "I've found some nearby facilities where you can practice these drills. Would you like to see the locations?" }
      (w.UpdateFlowState ECoachingFlowState.LocationSuggestion).AddMessageToUI Response
  | ECoachingFlowState.LocationSuggestion =>
      let Response := { Response with
        MessageText := "Excellent! Here's a summary of your progress and the next steps. Keep up the great work!" }
      (w.UpdateFlowState ECoachingFlowState.ProgressSummary).AddMessageToUI Response
  | _ =>
      let Response := { Response with
        MessageText := "Is there anything specific you'd like to focus on in your training?" }
      w.AddMessageToUI Response

/-- The fixed linear order of the coaching script: the state that
`ProcessUserInput` advances to from each of the six scripted states. -/
def nextFlowState : ECoachingFlowState → ECoachingFlowState
  | ECoachingFlowState.PerformanceReview => ECoachingFlowState.WeaknessIdentification
  | ECoachingFlowState.WeaknessIdentification => ECoachingFlowState.DrillRecommendation
  | ECoachingFlowState.DrillRecommendation => ECoachingFlowState.WorkoutPlan
  | ECoachingFlowState.WorkoutPlan => ECoachingFlowState.MealPlan
  | ECoachingFlowState.MealPlan => ECoachingFlowState.LocationSuggestion
  | ECoachingFlowState.LocationSuggestion => ECoachingFlowState.ProgressSummary
  | s => s

/-- The six states from which the script advances. -/
def advancingStates : List ECoachingFlowState :=
  [ECoachingFlowState.PerformanceReview, ECoachingFlowState.WeaknessIdentification,
   ECoachingFlowState.DrillRecommendation, ECoachingFlowState.WorkoutPlan,
   ECoachingFlowState.MealPlan, ECoachingFlowState.LocationSuggestion]

/-! ## Map view (`MapView.h/.cpp`) -/

/-- `FVector2D` (latitude/longitude pairs and similar). -/
structure FVector2D : Type where
  X : ℚ
  Y : ℚ
deriving DecidableEq, Repr

/-- `FVector` (world locations). -/
structure FVector : Type where
  X : ℚ
  Y : ℚ
  Z : ℚ
deriving DecidableEq, Repr

/-- `FVenueData` from `MapView.h`. -/
structure FVenueData : Type where
  Id : String
  Name : String
  Sports : List String
  Coordinates : FVector2D
  Description : String
  Images : List String
  bIsIndoor : Bool
deriving DecidableEq, Repr

/-- `FPlayerData` from `MapView.h`. -/
structure FPlayerData : Type where
  Id : String
  Name : String
  Coordinates : FVector2D
  AvatarUrl : String
  Sport : String
  Status : String
  LastActive : String
  VenueId : String
deriving DecidableEq, Repr

/-- `FEventData` from `MapView.h` (`StartTime` as an abstract tick). -/
structure FEventData : Type where
  Id : String
  EventType : String
  VenueId : String
  Title : String
  Status : String
  StartTime : Nat
  Description : String
deriving DecidableEq, Repr

/-- `FHighlightData` from `MapView.h`. -/
structure FHighlightData : Type where
  Id : String
  PlayerId : String
  HighlightType : String
  Description : String
  ScoreImpact : ℚ
  ConfidenceScore : ℚ
  Timestamp : Nat
  Coordinates : FVector2D
deriving DecidableEq, Repr

/-- A spawned marker actor (`AStaticMeshActor*`): the state the map code
reads or writes — its world location. -/
structure Marker : Type where
  location : FVector
deriving DecidableEq, Repr

/-- `TMap<FString, T>` as an association list with unique keys kept in
insertion order. -/
def TMapFindRef (m : List (String × Marker)) (k : String) : Option Marker :=
  (m.find? (fun p => p.1 = k)).map Prod.snd

/-- `TMap::Add`: replaces the value at an existing key, otherwise appends. -/
def TMapAdd (m : List (String × Marker)) (k : String) (v : Marker) :
    List (String × Marker) :=
  if m.any (fun p => p.1 = k) then
    m.map (fun p => if p.1 = k then (k, v) else p)
  else m ++ [(k, v)]

/-- The claim-relevant state of `AMapView`: zoom parameters, the stored
data arrays, the marker maps, and a log of markers destroyed so far
(`AActor::Destroy` calls). Mesh assets and widget classes set from the
editor are presence flags. -/
structure AMapView : Type where
  MinZoom : ℚ
  MaxZoom : ℚ
  ZoomSpeed : ℚ
  CurrentZoom : ℚ
  cameraZ : ℚ
  hasDefaultVenueMarker : Bool
  hasPlayerMarkerMesh : Bool
  hasEventMarkerMesh : Bool
  Venues : List FVenueData
  Players : List FPlayerData
  Events : List FEventData
  ActiveHighlights : List FHighlightData
  VenueMarkers : List (String × Marker)
  PlayerMarkers : List (String × Marker)
  EventMarkers : List (String × Marker)
  destroyedMarkers : List Marker
deriving DecidableEq, Repr

/-- The `AMapView::AMapView` constructor values (zoom parameters and empty
data); asset presence flags are set from the editor and passed in. -/
def AMapView.construct (hasVenueMesh hasPlayerMesh hasEventMesh : Bool) : AMapView :=
  { MinZoom := 500, MaxZoom := 5000, ZoomSpeed := 100
    CurrentZoom := 1000, cameraZ := 1000
    hasDefaultVenueMarker := hasVenueMesh
    hasPlayerMarkerMesh := hasPlayerMesh
    hasEventMarkerMesh := hasEventMesh
    Venues := [], Players := [], Events := [], ActiveHighlights := []
    VenueMarkers := [], PlayerMarkers := [], EventMarkers := []
    destroyedMarkers := [] }

/-- `FMath::Clamp` for floats: `X < Min ? Min : (X < Max ? X : Max)`. -/
def FMathClamp (X Min Max : ℚ) : ℚ :=
  if X < Min then Min else if X < Max then X else Max

/-- `AMapView::ZoomIn`. -/
def AMapView.ZoomIn (w : AMapView) (Delta : ℚ) : AMapView :=
  let NewZoom := FMathClamp (w.CurrentZoom - Delta * w.ZoomSpeed) w.MinZoom w.MaxZoom
  { w with CurrentZoom := NewZoom, cameraZ := NewZoom }

/-- `AMapView::ZoomOut`: calls `ZoomIn(-Delta)`. -/
def AMapView.ZoomOut (w : AMapView) (Delta : ℚ) : AMapView :=
  w.ZoomIn (-Delta)

/-- A call to one of the two zoom entry points. -/
inductive ZoomCall : Type
  | zoomIn (Delta : ℚ)
  | zoomOut (Delta : ℚ)

/-- Apply a sequence of zoom calls. -/
def applyZoomCalls (w : AMapView) : List ZoomCall → AMapView
  | [] => w
  | ZoomCall.zoomIn d :: rest => applyZoomCalls (w.ZoomIn d) rest
  | ZoomCall.zoomOut d :: rest => applyZoomCalls (w.ZoomOut d) rest

/-- `AMapView::SpawnVenueMarkers`. `proj` is the engine-side
`LatLongToWorldLocation` projection (transcendental float math, kept
abstract); `spawnOk` says whether `SpawnActor` returned non-null for a
given venue's marker. -/
def AMapView.SpawnVenueMarkers (proj : FVector2D → FVector)
    (spawnOk : FVenueData → Bool) (w : AMapView) : AMapView :=
  if !w.hasDefaultVenueMarker then w
  else
    { w with VenueMarkers :=
        (w.Venues.foldl (fun Ms Venue =>
          let Location := proj Venue.Coordinates
          if spawnOk Venue then TMapAdd Ms Venue.Id ⟨Location⟩ else Ms)
          w.VenueMarkers) }

/-- `AMapView::UpdateVenues`: destroys every stored venue marker, empties
the map, replaces the venue array and respawns. -/
def AMapView.UpdateVenues (proj : FVector2D → FVector)
    (spawnOk : FVenueData → Bool) (w : AMapView)
    (NewVenues : List FVenueData) : AMapView :=
  let w := { w with
    destroyedMarkers := w.destroyedMarkers ++ w.VenueMarkers.map Prod.snd
    VenueMarkers := [] }
  let w := { w with Venues := NewVenues }
  AMapView.SpawnVenueMarkers proj spawnOk w

/-- `AMapView::SpawnPlayerMarkers` (tooltip widgets are engine-side
UI objects that no claim touches; the marker map is what is modelled). -/
def AMapView.SpawnPlayerMarkers (proj : FVector2D → FVector)
    (spawnOk : FPlayerData → Bool) (w : AMapView) : AMapView :=
  if !w.hasPlayerMarkerMesh then w
  else
    { w with PlayerMarkers :=
        (w.Players.foldl (fun Ms Player =>
          let Location := proj Player.Coordinates
          if spawnOk Player then TMapAdd Ms Player.Id ⟨Location⟩ else Ms)
          w.PlayerMarkers) }

/-- `AMapView::UpdatePlayers`. -/
def AMapView.UpdatePlayers (proj : FVector2D → FVector)
    (spawnOk : FPlayerData → Bool) (w : AMapView)
    (NewPlayers : List FPlayerData) : AMapView :=
  let w := { w with
    destroyedMarkers := w.destroyedMarkers ++ w.PlayerMarkers.map Prod.snd
    PlayerMarkers := [] }
  let w := { w with Players := NewPlayers }
  AMapView.SpawnPlayerMarkers proj spawnOk w

/-- The venue-coordinate lookup inside `AMapView::SpawnEventMarkers`:
`FVector2D VenueCoords;` is DEFAULT-CONSTRUCTED WITHOUT INITIALIZATION
(`FVector2D()` performs none), then the loop assigns the coordinates of
the first venue whose `Id` matches and breaks. When no venue matches, the
uninitialized value — passed in here as `undef` — is what the subsequent
projection reads. -/
def venueCoordsForEvent (Venues : List FVenueData) (Event : FEventData)
    (undef : FVector2D) : FVector2D :=
  match Venues.find? (fun Venue => Venue.Id = Event.VenueId) with
  | some Venue => Venue.Coordinates
  | none => undef

/-- `AMapView::SpawnEventMarkers`: each event marker is spawned at the
projection of the looked-up venue coordinates with `Location.Z += 100`. -/
def AMapView.SpawnEventMarkers (proj : FVector2D → FVector)
    (spawnOk : FEventData → Bool) (undef : FVector2D) (w : AMapView) : AMapView :=
  if !w.hasEventMarkerMesh then w
  else
    { w with EventMarkers :=
        (w.Events.foldl (fun Ms Event =>
          let VenueCoords := venueCoordsForEvent w.Venues Event undef
          let L := proj VenueCoords
          let Location := { L with Z := L.Z + 100 }
          if spawnOk Event then TMapAdd Ms Event.Id ⟨Location⟩ else Ms)
          w.EventMarkers) }

/-- `AMapView::UpdateEvents`. -/
def AMapView.UpdateEvents (proj : FVector2D → FVector)
    (spawnOk : FEventData → Bool) (undef : FVector2D) (w : AMapView)
    (NewEvents : List FEventData) : AMapView :=
  let w := { w with
    destroyedMarkers := w.destroyedMarkers ++ w.EventMarkers.map Prod.snd
    EventMarkers := [] }
  let w := { w with Events := NewEvents }
  AMapView.SpawnEventMarkers proj spawnOk undef w

/-- The player-array update inside `AMapView::UpdatePlayerLocation`: the
loop assigns `NewLocation` to the `Coordinates` of the first player whose
`Id` matches, then breaks. -/
def updateFirstPlayerCoords (ps : List FPlayerData) (PlayerId : String)
    (NewLocation : FVector2D) : List FPlayerData :=
  match ps with
  | [] => []
  | p :: rest =>
      if p.Id = PlayerId then { p with Coordinates := NewLocation } :: rest
      else p :: updateFirstPlayerCoords rest PlayerId NewLocation

/-- `AMapView::UpdatePlayerLocation`: inside the loop body (reached only
when some player matches), the marker found under `PlayerId` — if any —
is moved to the projected new location; the loop then breaks. -/
def AMapView.UpdatePlayerLocation (proj : FVector2D → FVector) (w : AMapView)
    (PlayerId : String) (NewLocation : FVector2D) : AMapView :=
  if w.Players.any (fun p => p.Id = PlayerId) then
    { w with
      Players := updateFirstPlayerCoords w.Players PlayerId NewLocation
      PlayerMarkers := w.PlayerMarkers.map (fun p =>
        if p.1 = PlayerId then (p.1, ⟨proj NewLocation⟩) else p) }
  else w

/-- Sample map projection used to instantiate the abstract
`LatLongToWorldLocation` parameter in concrete witnesses. -/
def sampleProj : FVector2D → FVector := fun c => ⟨c.X, c.Y, 0⟩

/-- A concrete venue. -/
def sampleVenue : FVenueData :=
  { Id := "v1", Name := "Court", Sports := [], Coordinates := ⟨1, 2⟩
    Description := "", Images := [], bIsIndoor := true }

/-- A concrete player. -/
def samplePlayer : FPlayerData :=
  { Id := "p1", Name := "Ann", Coordinates := ⟨3, 4⟩, AvatarUrl := ""
    Sport := "soccer", Status := "active", LastActive := "", VenueId := "v1" }

/-- A concrete event at `sampleVenue`. -/
def sampleEvent : FEventData :=
  { Id := "e1", EventType := "match", VenueId := "v1", Title := "Game"
    Status := "active", StartTime := 0, Description := "" }

/-- The constructor state with one stored venue. -/
def sampleMapWithVenue : AMapView :=
  { AMapView.construct true true true with Venues := [sampleVenue] }

/-- The constructor state holding one player and that player's marker. -/
def sampleMapWithPlayer : AMapView :=
  { AMapView.construct true true true with
      Players := [samplePlayer]
      PlayerMarkers := [("p1", ⟨⟨3, 4, 0⟩⟩)] }

/-! ## Voice input (`VoiceInputManager.h/.cpp`) -/

/-- The `UAudioCaptureComponent` state the manager reads or writes. -/
structure CaptureState : Type where
  capturing : Bool
deriving DecidableEq, Repr

/-- The `IWebSocket` state the manager reads or writes. -/
structure WebSocketState : Type where
  connected : Bool
deriving DecidableEq, Repr

/-- Messages the manager serializes to JSON and sends over the socket. -/
inductive WSMessage : Type
  | endOfStream
  | setLanguage (language : String)
deriving DecidableEq, Repr

/-- The claim-relevant state of `UVoiceInputManager`. -/
structure UVoiceInputManager : Type where
  bIsRecording : Bool
  CurrentLanguage : String
  hasAudioComponent : Bool
  captureComponent : Option CaptureState
  webSocket : Option WebSocketState
  AudioBuffer : List Nat
  errorEvents : List String
  sentMessages : List WSMessage
deriving DecidableEq, Repr

/-- `UVoiceInputManager::ValidateAudioSetup`:
`if (!CaptureComponent || !AudioComponent) return false; return true`. -/
def UVoiceInputManager.ValidateAudioSetup (m : UVoiceInputManager) : Bool :=
  if m.captureComponent.isNone || !m.hasAudioComponent then false else true

/-- `UVoiceInputManager::InitializeWebSocket`: cleans up any previous
socket and creates a fresh one; `Connect()` completes asynchronously, so
the new socket is not yet connected when the call returns. -/
def UVoiceInputManager.InitializeWebSocket (m : UVoiceInputManager) :
    UVoiceInputManager :=
  { m with webSocket := some { connected := false } }

/-- `UVoiceInputManager::StartRecording`. -/
def UVoiceInputManager.StartRecording (m : UVoiceInputManager) :
    UVoiceInputManager :=
  if m.bIsRecording then m
  else if !m.ValidateAudioSetup then
    { m with errorEvents := m.errorEvents ++ ["Failed to initialize audio capture"] }
  else
    let m := m.InitializeWebSocket
    match m.captureComponent with
    | some c =>
        { m with bIsRecording := true, AudioBuffer := []
                 captureComponent := some { c with capturing := true } }
    | none => m

/-- `UVoiceInputManager::StopRecording`. -/
def UVoiceInputManager.StopRecording (m : UVoiceInputManager) :
    UVoiceInputManager :=
  if !m.bIsRecording then m
  else
    let m :=
      match m.captureComponent with
      | some c => { m with captureComponent := some { c with capturing := false } }
      | none => m
    let m := { m with bIsRecording := false }
    match m.webSocket with
    | some ws =>
        if ws.connected then
          { m with sentMessages := m.sentMessages ++ [WSMessage.endOfStream] }
        else m
    | none => m

/-! ## Media playback (`MediaPlayerWidget.h/.cpp`) -/

/-- The `UMediaPlayer` state the widget drives. -/
structure MediaPlayerObj : Type where
  playing : Bool
deriving DecidableEq, Repr

/-- The `UMediaSoundComponent` state the widget drives. -/
structure MediaSoundComponent : Type where
  volumeMultiplier : ℚ
deriving DecidableEq, Repr

/-- The claim-relevant state of `UMediaPlayerWidget`. -/
structure UMediaPlayerWidget : Type where
  mediaPlayer : Option MediaPlayerObj
  soundComponent : Option MediaSoundComponent
  bIsPlaying : Bool
  bIsMuted : Bool
  Duration : ℚ
deriving DecidableEq, Repr

/-- `UMediaPlayerWidget::Play`. -/
def UMediaPlayerWidget.Play (w : UMediaPlayerWidget) : UMediaPlayerWidget :=
  match w.mediaPlayer with
  | some p => { w with mediaPlayer := some { p with playing := true }
                       bIsPlaying := true }
  | none => w

/-- `UMediaPlayerWidget::Pause`. -/
def UMediaPlayerWidget.Pause (w : UMediaPlayerWidget) : UMediaPlayerWidget :=
  match w.mediaPlayer with
  | some p => { w with mediaPlayer := some { p with playing := false }
                       bIsPlaying := false }
  | none => w

/-- `UMediaPlayerWidget::TogglePlayPause`. -/
def UMediaPlayerWidget.TogglePlayPause (w : UMediaPlayerWidget) :
    UMediaPlayerWidget :=
  if w.bIsPlaying then w.Pause else w.Play

/-- `UMediaPlayerWidget::ToggleMute`: flips `bIsMuted` and sets the sound
component's volume multiplier to 0 when muted, 1 when unmuted. -/
def UMediaPlayerWidget.ToggleMute (w : UMediaPlayerWidget) : UMediaPlayerWidget :=
  match w.soundComponent with
  | some s =>
      let b := !w.bIsMuted
      { w with bIsMuted := b
               soundComponent := some { s with volumeMultiplier := if b then 0 else 1 } }
  | none => w

/-! ## Timeline feed (`TimelineFeedWidget.h/.cpp`) -/

/-- `FLinearColor`. -/
structure FLinearColor : Type where
  R : ℚ
  G : ℚ
  B : ℚ
  A : ℚ
deriving DecidableEq, Repr

/-- `FBadgeData` from `BadgeRewardWidget.h` (`Icon` as a presence flag). -/
structure FBadgeData : Type where
  BadgeID : String
  Name : String
  Description : String
  hasIcon : Bool
  EarnedDate : String
  BadgeColor : FLinearColor
deriving DecidableEq, Repr

/-- `FFeedEntry` from `TimelineFeedWidget.h`. -/
structure FFeedEntry : Type where
  Title : String
  Subtitle : String
  hasIcon : Bool
  Timestamp : Nat
  EntryType : String
  BadgeData : FBadgeData
deriving DecidableEq, Repr

/-- The claim-relevant state of `UTimelineFeedWidget`: widget-class and
scroll-box presence flags, `MaxEntries` (`int32`), and `FeedEntries`
— each created entry widget carrying the entry it displays. -/
structure UTimelineFeedWidget : Type where
  hasFeedScrollBox : Bool
  hasDefaultFeedEntryClass : Bool
  hasBadgeEntryClass : Bool
  MaxEntries : ℤ
  FeedEntries : List FFeedEntry
deriving DecidableEq, Repr

/-- The `UTimelineFeedWidget` constructor: `MaxEntries = 50`, no entries. -/
def UTimelineFeedWidget.construct (sb dc bc : Bool) : UTimelineFeedWidget :=
  { hasFeedScrollBox := sb, hasDefaultFeedEntryClass := dc
    hasBadgeEntryClass := bc, MaxEntries := 50, FeedEntries := [] }

/-- `UTimelineFeedWidget::CreateFeedEntryWidget`: picks the badge widget
class for `"badge"` entries and the default class otherwise; returns
null (`none`) when the chosen class is not set. -/
def UTimelineFeedWidget.CreateFeedEntryWidget (w : UTimelineFeedWidget)
    (Entry : FFeedEntry) : Option FFeedEntry :=
  if Entry.EntryType = "badge" then
    if w.hasBadgeEntryClass then some Entry else none
  else
    if w.hasDefaultFeedEntryClass then some Entry else none

/-- `UTimelineFeedWidget::TrimOldEntries`: when the list exceeds
`MaxEntries`, removes the excess entries from the front (index 0). -/
def UTimelineFeedWidget.TrimOldEntries (w : UTimelineFeedWidget) :
    UTimelineFeedWidget :=
  if (w.FeedEntries.length : ℤ) > w.MaxEntries then
    { w with FeedEntries :=
        w.FeedEntries.drop ((w.FeedEntries.length : ℤ) - w.MaxEntries).toNat }
  else w

/-- `UTimelineFeedWidget::AddFeedEntry`. -/
def UTimelineFeedWidget.AddFeedEntry (w : UTimelineFeedWidget)
    (Entry : FFeedEntry) : UTimelineFeedWidget :=
  if !w.hasFeedScrollBox then w
  else
    match w.CreateFeedEntryWidget Entry with
    | some EntryWidget =>
        UTimelineFeedWidget.TrimOldEntries
          { w with FeedEntries := w.FeedEntries ++ [EntryWidget] }
    | none => w

/-- `UTimelineFeedWidget::AddBadgeEntry`. -/
def UTimelineFeedWidget.AddBadgeEntry (w : UTimelineFeedWidget)
    (BadgeData : FBadgeData) (now : Nat) : UTimelineFeedWidget :=
  if !w.hasBadgeEntryClass then w
  else
    w.AddFeedEntry
      { Title := BadgeData.Name, Subtitle := BadgeData.Description
        hasIcon := BadgeData.hasIcon, Timestamp := now
        EntryType := "badge", BadgeData := BadgeData }

/-- `UTimelineFeedWidget::ClearFeed`. -/
def UTimelineFeedWidget.ClearFeed (w : UTimelineFeedWidget) :
    UTimelineFeedWidget :=
  if w.hasFeedScrollBox then { w with FeedEntries := [] } else w

/-- A call to one of the three feed entry points. -/
inductive FeedCall : Type
  | addFeed (Entry : FFeedEntry)
  | addBadge (BadgeData : FBadgeData) (now : Nat)
  | clear

/-- One feed call. -/
def feedStep (w : UTimelineFeedWidget) : FeedCall → UTimelineFeedWidget
  | FeedCall.addFeed e => w.AddFeedEntry e
  | FeedCall.addBadge b now => w.AddBadgeEntry b now
  | FeedCall.clear => w.ClearFeed

/-- Apply a sequence of feed calls. -/
def applyFeedCalls (w : UTimelineFeedWidget) (calls : List FeedCall) :
    UTimelineFeedWidget :=
  calls.foldl feedStep w

/-! ## Challenge card (`ChallengeCardWidget.h/.cpp`)

The progress ratio divides a `float` by `TargetProgress` (an `int32`
converted to `float`), which may be zero, so IEEE special values matter
here. `FFloat` models a float as NaN, a signed infinity, or a finite
value; finite arithmetic is kept exact over `ℚ` — the claim settled with
it (the clamped value lies in `[0, 1]`) is insensitive to rounding,
because clamping bounds any finite value regardless of how the quotient
was rounded. -/

/-- A float value: NaN, ±infinity, or finite. -/
inductive FFloat : Type
  | nan
  | inf (pos : Bool)
  | fin (q : ℚ)
deriving DecidableEq, Repr

/-- Float `<`: every comparison against NaN is false; `-inf < finite
< +inf`; finite values compare exactly. -/
def FFloat.flt : FFloat → FFloat → Bool
  | FFloat.nan, _ => false
  | _, FFloat.nan => false
  | FFloat.inf s, FFloat.inf t => !s && t
  | FFloat.inf s, FFloat.fin _ => !s
  | FFloat.fin _, FFloat.inf t => t
  | FFloat.fin a, FFloat.fin b => a < b

/-- IEEE division of a float by the float conversion of an `int32`
(always finite; the divisor zero is `+0`): `x/±0` gives NaN for `0/0`
and a signed infinity otherwise; nonzero finite division is exact. -/
def FFloat.divInt (x : FFloat) (t : ℤ) : FFloat :=
  match x with
  | FFloat.nan => FFloat.nan
  | FFloat.inf s => if 0 ≤ t then FFloat.inf s else FFloat.inf (!s)
  | FFloat.fin a =>
      if t = 0 then
        (if a = 0 then FFloat.nan else FFloat.inf (decide (0 < a)))
      else FFloat.fin (a / (t : ℚ))

/-- `FMath::Clamp` instantiated at `float`:
`X < Min ? Min : (X < Max ? X : Max)` with float comparisons. -/
def FFloatClamp (X Min Max : FFloat) : FFloat :=
  if X.flt Min then Min else if X.flt Max then X else Max

/-- The value `UChallengeCardWidget::UpdateProgressDisplay` passes to
`ProgressBar->SetPercent`:
`FMath::Clamp(CurrentProgress / TargetProgress, 0.0f, 1.0f)`. -/
def setPercentArg (TargetProgress : ℤ) (CurrentProgress : FFloat) : FFloat :=
  FFloatClamp (CurrentProgress.divInt TargetProgress) (FFloat.fin 0) (FFloat.fin 1)

/-- `FChallengeData` from `PlayerProfileWidget.h`. -/
structure FChallengeData : Type where
  Id : String
  Title : String
  Description : String
  Difficulty : String
  Target : ℤ
  CurrentProgress : ℤ
  XPReward : ℤ
  Category : String
deriving DecidableEq, Repr

/-- The claim-relevant state of `UChallengeCardWidget`: the private
`ChallengeId` and `TargetProgress` fields, progress-bar presence, the
last value passed to `SetPercent`, and `OnChallengeProgressed`
broadcasts. -/
structure UChallengeCardWidget : Type where
  ChallengeId : String
  TargetProgress : ℤ
  hasProgressBar : Bool
  progressBarPercent : Option FFloat
  progressedEvents : List FFloat
deriving DecidableEq, Repr

/-- `UChallengeCardWidget::UpdateProgressDisplay` (the `ProgressText`
update only formats strings for an engine text block). -/
def UChallengeCardWidget.UpdateProgressDisplay (w : UChallengeCardWidget)
    (CurrentProgress : FFloat) : UChallengeCardWidget :=
  if w.hasProgressBar then
    { w with progressBarPercent := some (setPercentArg w.TargetProgress CurrentProgress) }
  else w

/-- `UChallengeCardWidget::UpdateProgress`. -/
def UChallengeCardWidget.UpdateProgress (w : UChallengeCardWidget)
    (NewProgress : FFloat) : UChallengeCardWidget :=
  let w := w.UpdateProgressDisplay NewProgress
  { w with progressedEvents := w.progressedEvents ++ [NewProgress] }

/-- `UChallengeCardWidget::SetupChallenge` (difficulty color and category
icon touch only engine visuals): stores the Id and target, then runs
`UpdateProgress(ChallengeData.CurrentProgress)`. -/
def UChallengeCardWidget.SetupChallenge (w : UChallengeCardWidget)
    (ChallengeData : FChallengeData) : UChallengeCardWidget :=
  let w := { w with ChallengeId := ChallengeData.Id
                    TargetProgress := ChallengeData.Target }
  w.UpdateProgress (FFloat.fin ChallengeData.CurrentProgress)

/-! ## Claim theorems and their witnesses, with supporting lemmas -/

/-- C1: for every call to `ProcessUserInput` made while `CurrentState` is one
of the six scripted states, the flow advances `CurrentState` to the
immediately following state in the fixed order, appends exactly one coach
message (`bIsCoach = true`) to `MessageHistory`, and broadcasts
`OnFlowStateChanged` with the new state; for `CurrentState` equal to
`Initial` or `ProgressSummary`, `CurrentState` is unchanged and exactly one
fallback coach message is still appended. -/
theorem claim_C1_processUserInput_linear_script (now : Nat)
    (w : UCoachingFlowWidget) (Input : String) :
    (w.CurrentState ∈ advancingStates →
      (w.ProcessUserInput now Input).CurrentState = nextFlowState w.CurrentState ∧
      ∃ m : FCoachingMessage,
        (w.ProcessUserInput now Input).MessageHistory = w.MessageHistory ++ [m] ∧
        m.bIsCoach = true ∧
        (w.ProcessUserInput now Input).events =
          w.events ++ [CoachingEvent.flowStateChanged (nextFlowState w.CurrentState),
                       CoachingEvent.messageReceived m]) ∧
    ((w.CurrentState = ECoachingFlowState.Initial ∨
      w.CurrentState = ECoachingFlowState.ProgressSummary) →
      (w.ProcessUserInput now Input).CurrentState = w.CurrentState ∧
      ∃ m : FCoachingMessage,
        (w.ProcessUserInput now Input).MessageHistory = w.MessageHistory ++ [m] ∧
        m.bIsCoach = true) := by
  obtain ⟨s, hist, ev⟩ := w
  have ha : ∀ (x : List CoachingEvent) (a b : CoachingEvent),
      (x ++ [a]) ++ [b] = x ++ [a, b] := fun x a b => by simp
  cases s
  case Initial =>
    refine ⟨fun h => ?_, fun _ => ⟨rfl, _, rfl, rfl⟩⟩
    simp [advancingStates] at h
  case ProgressSummary =>
    refine ⟨fun h => ?_, fun _ => ⟨rfl, _, rfl, rfl⟩⟩
    simp [advancingStates] at h
  case PerformanceReview =>
    refine ⟨fun _ => ⟨rfl, _, rfl, rfl, ha ev _ _⟩, fun h => ?_⟩
    simp at h
  case WeaknessIdentification =>
    refine ⟨fun _ => ⟨rfl, _, rfl, rfl, ha ev _ _⟩, fun h => ?_⟩
    simp at h
  case DrillRecommendation =>
    refine ⟨fun _ => ⟨rfl, _, rfl, rfl, ha ev _ _⟩, fun h => ?_⟩
    simp at h
  case WorkoutPlan =>
    refine ⟨fun _ => ⟨rfl, _, rfl, rfl, ha ev _ _⟩, fun h => ?_⟩
    simp at h
  case MealPlan =>
    refine ⟨fun _ => ⟨rfl, _, rfl, rfl, ha ev _ _⟩, fun h => ?_⟩
    simp at h
  case LocationSuggestion =>
    refine ⟨fun _ => ⟨rfl, _, rfl, rfl, ha ev _ _⟩, fun h => ?_⟩
    simp at h

/-- Witness for C1 at concrete inputs: from `PerformanceReview` the flow
advances to `WeaknessIdentification`; from `Initial` it stays at `Initial`. -/
theorem claim_C1_witness :
    ((UCoachingFlowWidget.mk ECoachingFlowState.PerformanceReview [] []).ProcessUserInput
        0 "x").CurrentState = ECoachingFlowState.WeaknessIdentification ∧
    ((UCoachingFlowWidget.mk ECoachingFlowState.Initial [] []).ProcessUserInput
        0 "x").CurrentState = ECoachingFlowState.Initial := by
  constructor
  · exact ((claim_C1_processUserInput_linear_script 0
      ⟨ECoachingFlowState.PerformanceReview, [], []⟩ "x").1 (by decide)).1
  · exact ((claim_C1_processUserInput_linear_script 0
      ⟨ECoachingFlowState.Initial, [], []⟩ "x").2 (Or.inl rfl)).1

/-- C2: for every prior state and message history, after `StartCoachingFlow`
returns, `MessageHistory` contains exactly one message — the Coach AI
welcome message with `bIsCoach = true` and empty `MediaURL` — and
`CurrentState` equals `PerformanceReview` (the transient assignment to
`Initial` is not observable after the call). -/
theorem claim_C2_startCoachingFlow_resets (now : Nat) (w : UCoachingFlowWidget) :
    ∃ m : FCoachingMessage,
      (w.StartCoachingFlow now).MessageHistory = [m] ∧
      m.SenderName = "Coach AI" ∧ m.bIsCoach = true ∧ m.MediaURL = "" ∧
      (w.StartCoachingFlow now).CurrentState = ECoachingFlowState.PerformanceReview :=
  ⟨_, rfl, rfl, rfl, rfl, rfl⟩

lemma FMathClamp_bounds (X Min Max : ℚ) (h : Min ≤ Max) :
    Min ≤ FMathClamp X Min Max ∧ FMathClamp X Min Max ≤ Max := by
  unfold FMathClamp
  split_ifs with h1 h2 <;> constructor <;> linarith

lemma applyZoomCalls_MinZoom (calls : List ZoomCall) (w : AMapView) :
    (applyZoomCalls w calls).MinZoom = w.MinZoom ∧
    (applyZoomCalls w calls).MaxZoom = w.MaxZoom := by
  induction calls generalizing w with
  | nil => exact ⟨rfl, rfl⟩
  | cons c rest ih => cases c <;> exact ih _

lemma applyZoomCalls_inRange (calls : List ZoomCall) (w : AMapView)
    (hmm : w.MinZoom ≤ w.MaxZoom)
    (h1 : w.MinZoom ≤ w.CurrentZoom) (h2 : w.CurrentZoom ≤ w.MaxZoom) :
    w.MinZoom ≤ (applyZoomCalls w calls).CurrentZoom ∧
    (applyZoomCalls w calls).CurrentZoom ≤ w.MaxZoom := by
  induction calls generalizing w with
  | nil => exact ⟨h1, h2⟩
  | cons c rest ih =>
      cases c with
      | zoomIn d =>
          exact ih (w.ZoomIn d) hmm
            (FMathClamp_bounds (w.CurrentZoom - d * w.ZoomSpeed) w.MinZoom w.MaxZoom hmm).1
            (FMathClamp_bounds (w.CurrentZoom - d * w.ZoomSpeed) w.MinZoom w.MaxZoom hmm).2
      | zoomOut d =>
          exact ih (w.ZoomOut d) hmm
            (FMathClamp_bounds (w.CurrentZoom - (-d) * w.ZoomSpeed) w.MinZoom w.MaxZoom hmm).1
            (FMathClamp_bounds (w.CurrentZoom - (-d) * w.ZoomSpeed) w.MinZoom w.MaxZoom hmm).2

/-- C8: if `MinZoom ≤ CurrentZoom ≤ MaxZoom` holds initially (as the
constructor sets up with `MinZoom = 500`, `MaxZoom = 5000`,
`CurrentZoom = 1000`), then after any finite sequence of `ZoomIn` and
`ZoomOut` calls with arbitrary deltas `CurrentZoom` still lies in
`[MinZoom, MaxZoom]`; moreover `ZoomOut(Delta)` has exactly the same
effect on `CurrentZoom` as `ZoomIn(-Delta)`. -/
theorem claim_C8_zoom_clamped (w : AMapView) (calls : List ZoomCall)
    (hmm : w.MinZoom ≤ w.MaxZoom)
    (h1 : w.MinZoom ≤ w.CurrentZoom) (h2 : w.CurrentZoom ≤ w.MaxZoom) :
    (w.MinZoom ≤ (applyZoomCalls w calls).CurrentZoom ∧
     (applyZoomCalls w calls).CurrentZoom ≤ w.MaxZoom) ∧
    ∀ Delta : ℚ, (w.ZoomOut Delta).CurrentZoom = (w.ZoomIn (-Delta)).CurrentZoom :=
  ⟨applyZoomCalls_inRange calls w hmm h1 h2, fun _ => rfl⟩

/-- Witness for C8: the constructor state (`MinZoom = 500`,
`MaxZoom = 5000`, `CurrentZoom = 1000`) after a concrete zoom sequence. -/
theorem claim_C8_witness :
    (AMapView.construct true true true).MinZoom ≤
      (applyZoomCalls (AMapView.construct true true true)
        [ZoomCall.zoomIn 100, ZoomCall.zoomOut 3, ZoomCall.zoomIn (-7)]).CurrentZoom ∧
    (applyZoomCalls (AMapView.construct true true true)
        [ZoomCall.zoomIn 100, ZoomCall.zoomOut 3, ZoomCall.zoomIn (-7)]).CurrentZoom ≤
      (AMapView.construct true true true).MaxZoom :=
  (claim_C8_zoom_clamped (AMapView.construct true true true)
    [ZoomCall.zoomIn 100, ZoomCall.zoomOut 3, ZoomCall.zoomIn (-7)]
    (by norm_num [AMapView.construct]) (by norm_num [AMapView.construct])
    (by norm_num [AMapView.construct])).1

lemma TMapAdd_of_not_mem (m : List (String × Marker)) (k : String) (v : Marker)
    (h : ∀ p ∈ m, p.1 ≠ k) : TMapAdd m k v = m ++ [(k, v)] := by
  have hany : (m.any (fun p => p.1 = k)) = false := by
    rw [Bool.eq_false_iff]
    intro hc
    rcases List.any_eq_true.mp hc with ⟨p, hp, hpk⟩
    exact h p hp (by simpa using hpk)
  simp [TMapAdd, hany]

lemma foldl_spawn_keys {α : Type} (key : α → String) (mk : α → Marker)
    (ok : α → Bool) :
    ∀ (xs : List α) (m : List (String × Marker)),
      (∀ x ∈ xs, ok x = true) →
      (∀ x ∈ xs, ∀ p ∈ m, p.1 ≠ key x) →
      (xs.map key).Nodup →
      xs.foldl (fun Ms x => if ok x then TMapAdd Ms (key x) (mk x) else Ms) m
        = m ++ xs.map (fun x => (key x, mk x))
  | [], m, _, _, _ => by simp
  | x :: rest, m, hok, hdisj, hnodup => by
      have hx : ok x = true := hok x (List.mem_cons_self x rest)
      have hnd : (∀ y ∈ rest, ¬ key y = key x) ∧ (rest.map key).Nodup := by
        simpa using hnodup
      simp only [List.foldl_cons, hx, if_true]
      rw [TMapAdd_of_not_mem _ _ _ (fun p hp => hdisj x (List.mem_cons_self x rest) p hp)]
      rw [foldl_spawn_keys key mk ok rest (m ++ [(key x, mk x)])
        (fun y hy => hok y (List.mem_cons_of_mem x hy))
        (fun y hy p hp => by
          rcases List.mem_append.mp hp with hp | hp
          · exact hdisj y (List.mem_cons_of_mem x hy) p hp
          · have hpx : p = (key x, mk x) := by simpa using hp
            subst hpx
            intro hc
            exact hnd.1 y hy hc.symm)
        hnd.2]
      simp

lemma venue_fold_keys (proj : FVector2D → FVector) (spawnOk : FVenueData → Bool)
    (xs : List FVenueData) (m : List (String × Marker))
    (hok : ∀ x ∈ xs, spawnOk x = true)
    (hdisj : ∀ x ∈ xs, ∀ p ∈ m, p.1 ≠ x.Id)
    (hnodup : (xs.map FVenueData.Id).Nodup) :
    xs.foldl (fun Ms Venue =>
        if spawnOk Venue then TMapAdd Ms Venue.Id ⟨proj Venue.Coordinates⟩ else Ms) m
      = m ++ xs.map (fun v => (v.Id, Marker.mk (proj v.Coordinates))) :=
  foldl_spawn_keys FVenueData.Id (fun v => ⟨proj v.Coordinates⟩) spawnOk xs m
    hok hdisj hnodup

lemma player_fold_keys (proj : FVector2D → FVector) (spawnOk : FPlayerData → Bool)
    (xs : List FPlayerData) (m : List (String × Marker))
    (hok : ∀ x ∈ xs, spawnOk x = true)
    (hdisj : ∀ x ∈ xs, ∀ p ∈ m, p.1 ≠ x.Id)
    (hnodup : (xs.map FPlayerData.Id).Nodup) :
    xs.foldl (fun Ms Player =>
        if spawnOk Player then TMapAdd Ms Player.Id ⟨proj Player.Coordinates⟩ else Ms) m
      = m ++ xs.map (fun p => (p.Id, Marker.mk (proj p.Coordinates))) :=
  foldl_spawn_keys FPlayerData.Id (fun p => ⟨proj p.Coordinates⟩) spawnOk xs m
    hok hdisj hnodup

lemma event_fold_keys (proj : FVector2D → FVector) (spawnOk : FEventData → Bool)
    (undef : FVector2D) (Venues : List FVenueData)
    (xs : List FEventData) (m : List (String × Marker))
    (hok : ∀ x ∈ xs, spawnOk x = true)
    (hdisj : ∀ x ∈ xs, ∀ p ∈ m, p.1 ≠ x.Id)
    (hnodup : (xs.map FEventData.Id).Nodup) :
    xs.foldl (fun Ms Event =>
        if spawnOk Event then
          TMapAdd Ms Event.Id
            ⟨{ proj (venueCoordsForEvent Venues Event undef) with
                Z := (proj (venueCoordsForEvent Venues Event undef)).Z + 100 }⟩
        else Ms) m
      = m ++ xs.map (fun e =>
          (e.Id, Marker.mk
            { proj (venueCoordsForEvent Venues e undef) with
                Z := (proj (venueCoordsForEvent Venues e undef)).Z + 100 })) :=
  foldl_spawn_keys FEventData.Id
    (fun e => ⟨{ proj (venueCoordsForEvent Venues e undef) with
        Z := (proj (venueCoordsForEvent Venues e undef)).Z + 100 }⟩) spawnOk xs m
    hok hdisj hnodup

/-- C3: the marker lifecycle is full replacement. For each of
`UpdateVenues`, `UpdatePlayers`, `UpdateEvents` with a new data array of
pairwise-distinct Ids: every previously stored marker of that kind is
destroyed and its map emptied, the stored data array is replaced, and —
provided the marker mesh asset is set and each spawn succeeds — exactly
one marker is stored per element keyed by its Id, so the marker map's
keys equal the Ids of the new array. -/
theorem claim_C3_update_replaces_markers (proj : FVector2D → FVector)
    (w : AMapView)
    (okV : FVenueData → Bool) (okP : FPlayerData → Bool) (okE : FEventData → Bool)
    (undef : FVector2D)
    (NewVenues : List FVenueData) (NewPlayers : List FPlayerData)
    (NewEvents : List FEventData) :
    ((w.UpdateVenues proj okV NewVenues).Venues = NewVenues ∧
     (w.UpdateVenues proj okV NewVenues).destroyedMarkers
        = w.destroyedMarkers ++ w.VenueMarkers.map Prod.snd ∧
     ((NewVenues.map FVenueData.Id).Nodup → w.hasDefaultVenueMarker = true →
      (∀ v ∈ NewVenues, okV v = true) →
      (w.UpdateVenues proj okV NewVenues).VenueMarkers.map Prod.fst
        = NewVenues.map FVenueData.Id)) ∧
    ((w.UpdatePlayers proj okP NewPlayers).Players = NewPlayers ∧
     (w.UpdatePlayers proj okP NewPlayers).destroyedMarkers
        = w.destroyedMarkers ++ w.PlayerMarkers.map Prod.snd ∧
     ((NewPlayers.map FPlayerData.Id).Nodup → w.hasPlayerMarkerMesh = true →
      (∀ p ∈ NewPlayers, okP p = true) →
      (w.UpdatePlayers proj okP NewPlayers).PlayerMarkers.map Prod.fst
        = NewPlayers.map FPlayerData.Id)) ∧
    ((w.UpdateEvents proj okE undef NewEvents).Events = NewEvents ∧
     (w.UpdateEvents proj okE undef NewEvents).destroyedMarkers
        = w.destroyedMarkers ++ w.EventMarkers.map Prod.snd ∧
     ((NewEvents.map FEventData.Id).Nodup → w.hasEventMarkerMesh = true →
      (∀ e ∈ NewEvents, okE e = true) →
      (w.UpdateEvents proj okE undef NewEvents).EventMarkers.map Prod.fst
        = NewEvents.map FEventData.Id)) := by
  refine ⟨⟨?_, ?_, ?_⟩, ⟨?_, ?_, ?_⟩, ⟨?_, ?_, ?_⟩⟩
  · cases h : w.hasDefaultVenueMarker <;>
      simp [AMapView.UpdateVenues, AMapView.SpawnVenueMarkers, h]
  · cases h : w.hasDefaultVenueMarker <;>
      simp [AMapView.UpdateVenues, AMapView.SpawnVenueMarkers, h]
  · intro h1 h2 h3
    simp only [AMapView.UpdateVenues, AMapView.SpawnVenueMarkers, h2,
      Bool.not_true, Bool.false_eq_true, if_false]
    rw [venue_fold_keys proj okV NewVenues [] h3 (by simp) h1]
    simp
  · cases h : w.hasPlayerMarkerMesh <;>
      simp [AMapView.UpdatePlayers, AMapView.SpawnPlayerMarkers, h]
  · cases h : w.hasPlayerMarkerMesh <;>
      simp [AMapView.UpdatePlayers, AMapView.SpawnPlayerMarkers, h]
  · intro h1 h2 h3
    simp only [AMapView.UpdatePlayers, AMapView.SpawnPlayerMarkers, h2,
      Bool.not_true, Bool.false_eq_true, if_false]
    rw [player_fold_keys proj okP NewPlayers [] h3 (by simp) h1]
    simp
  · cases h : w.hasEventMarkerMesh <;>
      simp [AMapView.UpdateEvents, AMapView.SpawnEventMarkers, h]
  · cases h : w.hasEventMarkerMesh <;>
      simp [AMapView.UpdateEvents, AMapView.SpawnEventMarkers, h]
  · intro h1 h2 h3
    simp only [AMapView.UpdateEvents, AMapView.SpawnEventMarkers, h2,
      Bool.not_true, Bool.false_eq_true, if_false]
    rw [event_fold_keys proj okE undef w.Venues NewEvents [] h3 (by simp) h1]
    simp

/-- Witness for C3 at singleton arrays on the constructor state. -/
theorem claim_C3_witness :
    (AMapView.UpdateVenues sampleProj (fun _ => true)
        (AMapView.construct true true true) [sampleVenue]).VenueMarkers.map Prod.fst
      = [sampleVenue.Id] ∧
    (AMapView.UpdatePlayers sampleProj (fun _ => true)
        (AMapView.construct true true true) [samplePlayer]).PlayerMarkers.map Prod.fst
      = [samplePlayer.Id] ∧
    (AMapView.UpdateEvents sampleProj (fun _ => true) ⟨0, 0⟩
        (AMapView.construct true true true) [sampleEvent]).EventMarkers.map Prod.fst
      = [sampleEvent.Id] := by
  refine ⟨?_, ?_, ?_⟩
  · exact (claim_C3_update_replaces_markers sampleProj
      (AMapView.construct true true true) (fun _ => true) (fun _ => true)
      (fun _ => true) ⟨0, 0⟩ [sampleVenue] [samplePlayer] [sampleEvent]).1.2.2
      (by simp) rfl (fun _ _ => rfl)
  · exact (claim_C3_update_replaces_markers sampleProj
      (AMapView.construct true true true) (fun _ => true) (fun _ => true)
      (fun _ => true) ⟨0, 0⟩ [sampleVenue] [samplePlayer] [sampleEvent]).2.1.2.2
      (by simp) rfl (fun _ _ => rfl)
  · exact (claim_C3_update_replaces_markers sampleProj
      (AMapView.construct true true true) (fun _ => true) (fun _ => true)
      (fun _ => true) ⟨0, 0⟩ [sampleVenue] [samplePlayer] [sampleEvent]).2.2.2.2
      (by simp) rfl (fun _ _ => rfl)

lemma TMapFindRef_map_of_nodup {α : Type} (key : α → String) (f : α → Marker) :
    ∀ (xs : List α), (xs.map key).Nodup → ∀ e ∈ xs,
      TMapFindRef (xs.map (fun x => (key x, f x))) (key e) = some (f e)
  | [], _, e, he => absurd he (List.not_mem_nil e)
  | x :: rest, hnodup, e, he => by
      have hnd : (∀ y ∈ rest, ¬ key y = key x) ∧ (rest.map key).Nodup := by
        simpa using hnodup
      by_cases hk : key x = key e
      · have hex : e = x := by
          rcases List.mem_cons.mp he with h | h
          · exact h
          · exact absurd hk.symm (hnd.1 e h)
        subst hex
        simp [TMapFindRef, List.find?, hk]
      · have hrest : e ∈ rest := by
          rcases List.mem_cons.mp he with h | h
          · exact absurd (h ▸ rfl) hk
          · exact h
        have ih := TMapFindRef_map_of_nodup key f rest hnd.2 e hrest
        simpa [TMapFindRef, List.find?, hk] using ih

/-- C4 counterexample: for an event whose `VenueId` matches no stored
venue, the spawned marker position is NOT well defined — it reads the
default-constructed (uninitialized) `FVector2D VenueCoords`, so two runs
differing only in that indeterminate value place the marker differently.
Here the state holds no venues and one event with `VenueId = "v1"`. -/
theorem claim_C4_counterexample :
    (AMapView.UpdateEvents sampleProj (fun _ => true) ⟨0, 0⟩
        (AMapView.construct true true true) [sampleEvent]).EventMarkers
  ≠ (AMapView.UpdateEvents sampleProj (fun _ => true) ⟨5, 7⟩
        (AMapView.construct true true true) [sampleEvent]).EventMarkers := by
  decide

/-- C4 (amended): for every event whose `VenueId` matches a stored venue,
`SpawnEventMarkers` (via `UpdateEvents`) spawns that event's marker at
`LatLongToWorldLocation` of that venue's Coordinates offset by exactly
100 units on Z, independently of the indeterminate initial value of
`VenueCoords`; for events matching no venue the placement reads that
indeterminate value and is not determined by the stored data. -/
theorem claim_C4_event_marker_at_venue (proj : FVector2D → FVector)
    (okE : FEventData → Bool) (undef : FVector2D) (w : AMapView)
    (NewEvents : List FEventData) (e : FEventData) (v : FVenueData)
    (hnodup : (NewEvents.map FEventData.Id).Nodup)
    (hmesh : w.hasEventMarkerMesh = true)
    (hok : ∀ x ∈ NewEvents, okE x = true)
    (he : e ∈ NewEvents)
    (hv : w.Venues.find? (fun Venue => Venue.Id = e.VenueId) = some v) :
    TMapFindRef (w.UpdateEvents proj okE undef NewEvents).EventMarkers e.Id
      = some ⟨{ proj v.Coordinates with Z := (proj v.Coordinates).Z + 100 }⟩ := by
  have hfold :
      (w.UpdateEvents proj okE undef NewEvents).EventMarkers
        = [] ++ NewEvents.map (fun x =>
            (x.Id, Marker.mk
              { proj (venueCoordsForEvent w.Venues x undef) with
                  Z := (proj (venueCoordsForEvent w.Venues x undef)).Z + 100 })) := by
    simp only [AMapView.UpdateEvents, AMapView.SpawnEventMarkers, hmesh,
      Bool.not_true, Bool.false_eq_true, if_false]
    exact event_fold_keys proj okE undef w.Venues NewEvents [] hok (by simp) hnodup
  rw [hfold]
  have hlook := TMapFindRef_map_of_nodup FEventData.Id
    (fun x => Marker.mk
      { proj (venueCoordsForEvent w.Venues x undef) with
          Z := (proj (venueCoordsForEvent w.Venues x undef)).Z + 100 })
    NewEvents hnodup e he
  rw [List.nil_append, hlook]
  simp [venueCoordsForEvent, hv]

/-- Witness for the amended C4: the stored venue `"v1"` at `(1,2)` and one
event referencing it; the marker lands at the projected venue location
with `Z + 100`. -/
theorem claim_C4_witness :
    TMapFindRef (AMapView.UpdateEvents sampleProj (fun _ => true) ⟨9, 9⟩
        sampleMapWithVenue [sampleEvent]).EventMarkers sampleEvent.Id
      = some ⟨{ sampleProj sampleVenue.Coordinates with
                  Z := (sampleProj sampleVenue.Coordinates).Z + 100 }⟩ :=
  claim_C4_event_marker_at_venue sampleProj (fun _ => true) ⟨9, 9⟩
    sampleMapWithVenue [sampleEvent] sampleEvent sampleVenue
    (by simp) rfl (fun _ _ => rfl) (List.mem_singleton_self sampleEvent)
    (by decide)

lemma updateFirst_decomp (PlayerId : String) (NewLocation : FVector2D) :
    ∀ ps : List FPlayerData, ps.any (fun p => p.Id = PlayerId) = true →
      ∃ pre p post, ps = pre ++ p :: post ∧ (∀ q ∈ pre, q.Id ≠ PlayerId) ∧
        p.Id = PlayerId ∧
        updateFirstPlayerCoords ps PlayerId NewLocation
          = pre ++ ({ p with Coordinates := NewLocation } :: post)
  | [], h => by simp at h
  | q :: rest, h => by
      by_cases hq : q.Id = PlayerId
      · exact ⟨[], q, rest, rfl, by simp, hq, by simp [updateFirstPlayerCoords, hq]⟩
      · have hrest : rest.any (fun p => p.Id = PlayerId) = true := by
          simpa [List.any_cons, hq] using h
        obtain ⟨pre, p, post, h1, h2, h3, h4⟩ :=
          updateFirst_decomp PlayerId NewLocation rest hrest
        refine ⟨q :: pre, p, post, by simp [h1], ?_, h3,
          by simp [updateFirstPlayerCoords, hq, h4]⟩
        intro r hr
        rcases List.mem_cons.mp hr with hr | hr
        · exact hr ▸ hq
        · exact h2 r hr

lemma TMapFindRef_cons_pos (k0 k : String) (v0 : Marker)
    (rest : List (String × Marker)) (h : k0 = k) :
    TMapFindRef ((k0, v0) :: rest) k = some v0 := by
  unfold TMapFindRef
  rw [List.find?_cons_of_pos rest (by simpa using h)]
  rfl

lemma TMapFindRef_cons_neg (k0 k : String) (v0 : Marker)
    (rest : List (String × Marker)) (h : ¬ k0 = k) :
    TMapFindRef ((k0, v0) :: rest) k = TMapFindRef rest k := by
  unfold TMapFindRef
  rw [List.find?_cons_of_neg rest (by simpa using h)]

lemma mapIf_findRef (pid : String) (v : Marker) :
    ∀ (m : List (String × Marker)) (k : String),
      TMapFindRef (m.map (fun p => if p.1 = pid then (p.1, v) else p)) k
        = if k = pid then (TMapFindRef m pid).map (fun _ => v)
          else TMapFindRef m k
  | [], k => by simp [TMapFindRef]
  | (k0, v0) :: rest, k => by
      have ih := mapIf_findRef pid v rest k
      simp only [List.map_cons]
      by_cases h0 : k0 = pid
      · by_cases hk : k = pid
        · rw [if_pos hk, if_pos h0,
            TMapFindRef_cons_pos k0 k v _ (h0.trans hk.symm),
            TMapFindRef_cons_pos k0 pid v0 rest h0]
          rfl
        · rw [if_neg hk, if_pos h0,
            TMapFindRef_cons_neg k0 k v _ (fun hc => hk (hc ▸ h0)),
            TMapFindRef_cons_neg k0 k v0 rest (fun hc => hk (hc ▸ h0)),
            ih, if_neg hk]
      · by_cases hk : k0 = k
        · rw [if_neg h0,
            TMapFindRef_cons_pos k0 k v0 _ hk,
            if_neg (fun hc => h0 (hk.trans hc)),
            TMapFindRef_cons_pos k0 k v0 rest hk]
        · rw [if_neg h0]
          by_cases hkp : k = pid
          · rw [if_pos hkp,
              TMapFindRef_cons_neg k0 k v0 _ hk,
              TMapFindRef_cons_neg k0 pid v0 rest (fun hc => hk (hc.trans hkp.symm)),
              ih, if_pos hkp]
          · rw [if_neg hkp,
              TMapFindRef_cons_neg k0 k v0 _ hk,
              TMapFindRef_cons_neg k0 k v0 rest hk,
              ih, if_neg hkp]

/-- C5: `UpdatePlayerLocation(PlayerId, NewLocation)` modifies only the
`Coordinates` of the first stored player whose `Id` matches and
repositions only that player's marker; every other player, every other
marker, and the venue/event/highlight data are unchanged; with no
matching player the entire state is unchanged. -/
theorem claim_C5_updatePlayerLocation_frame (proj : FVector2D → FVector)
    (w : AMapView) (PlayerId : String) (NewLocation : FVector2D) :
    ((∀ p ∈ w.Players, p.Id ≠ PlayerId) →
      w.UpdatePlayerLocation proj PlayerId NewLocation = w) ∧
    ((w.UpdatePlayerLocation proj PlayerId NewLocation).Venues = w.Venues ∧
     (w.UpdatePlayerLocation proj PlayerId NewLocation).Events = w.Events ∧
     (w.UpdatePlayerLocation proj PlayerId NewLocation).ActiveHighlights
        = w.ActiveHighlights ∧
     (w.UpdatePlayerLocation proj PlayerId NewLocation).VenueMarkers
        = w.VenueMarkers ∧
     (w.UpdatePlayerLocation proj PlayerId NewLocation).EventMarkers
        = w.EventMarkers ∧
     (w.UpdatePlayerLocation proj PlayerId NewLocation).CurrentZoom
        = w.CurrentZoom ∧
     (w.UpdatePlayerLocation proj PlayerId NewLocation).destroyedMarkers
        = w.destroyedMarkers) ∧
    (∀ k, k ≠ PlayerId →
      TMapFindRef (w.UpdatePlayerLocation proj PlayerId NewLocation).PlayerMarkers k
        = TMapFindRef w.PlayerMarkers k) ∧
    (w.Players.any (fun p => p.Id = PlayerId) = true →
      (∃ pre p post, w.Players = pre ++ p :: post ∧
        (∀ q ∈ pre, q.Id ≠ PlayerId) ∧ p.Id = PlayerId ∧
        (w.UpdatePlayerLocation proj PlayerId NewLocation).Players
          = pre ++ ({ p with Coordinates := NewLocation } :: post)) ∧
      TMapFindRef (w.UpdatePlayerLocation proj PlayerId NewLocation).PlayerMarkers
          PlayerId
        = (TMapFindRef w.PlayerMarkers PlayerId).map
            (fun _ => Marker.mk (proj NewLocation))) := by
  refine ⟨?_, ?_, ?_, ?_⟩
  · intro h
    have hany : w.Players.any (fun p => p.Id = PlayerId) = false := by
      rw [Bool.eq_false_iff]
      intro hc
      rcases List.any_eq_true.mp hc with ⟨p, hp, hpk⟩
      exact h p hp (by simpa using hpk)
    simp [AMapView.UpdatePlayerLocation, hany]
  · unfold AMapView.UpdatePlayerLocation
    split <;> exact ⟨rfl, rfl, rfl, rfl, rfl, rfl, rfl⟩
  · intro k hk
    unfold AMapView.UpdatePlayerLocation
    split
    · rw [mapIf_findRef PlayerId (Marker.mk (proj NewLocation)) w.PlayerMarkers k,
        if_neg hk]
    · rfl
  · intro h
    constructor
    · obtain ⟨pre, p, post, h1, h2, h3, h4⟩ :=
        updateFirst_decomp PlayerId NewLocation w.Players h
      exact ⟨pre, p, post, h1, h2, h3, by simp [AMapView.UpdatePlayerLocation, h, h4]⟩
    · simp only [AMapView.UpdatePlayerLocation, h, if_true]
      rw [mapIf_findRef PlayerId (Marker.mk (proj NewLocation)) w.PlayerMarkers PlayerId,
        if_pos rfl]

/-- Witness for C5: moving player `"p1"` updates that player's stored
coordinates and repositions their marker. -/
theorem claim_C5_witness :
    (∃ pre p post, sampleMapWithPlayer.Players = pre ++ p :: post ∧
      (∀ q ∈ pre, q.Id ≠ "p1") ∧ p.Id = "p1" ∧
      (sampleMapWithPlayer.UpdatePlayerLocation sampleProj "p1" ⟨8, 9⟩).Players
        = pre ++ ({ p with Coordinates := (⟨8, 9⟩ : FVector2D) } :: post)) ∧
    TMapFindRef
        (sampleMapWithPlayer.UpdatePlayerLocation sampleProj "p1" ⟨8, 9⟩).PlayerMarkers
        "p1"
      = (TMapFindRef sampleMapWithPlayer.PlayerMarkers "p1").map
          (fun _ => Marker.mk (sampleProj ⟨8, 9⟩)) :=
  (claim_C5_updatePlayerLocation_frame sampleProj sampleMapWithPlayer "p1"
    ⟨8, 9⟩).2.2.2 (by decide)

/-- C6: voice-input capture start/stop is guarded and atomic on error.
`StartRecording` while already recording changes nothing; `StartRecording`
when audio-setup validation fails appends exactly one
`OnVoiceInputError` broadcast and changes nothing else (recording stays
off); `StopRecording` while not recording changes nothing; and a
`StartRecording` that passes validation (which requires the capture
component) leaves `bIsRecording = true` with an empty audio buffer. -/
theorem claim_C6_recording_guards (m : UVoiceInputManager) :
    (m.bIsRecording = true → m.StartRecording = m) ∧
    (m.bIsRecording = false → m.ValidateAudioSetup = false →
      m.StartRecording
        = { m with errorEvents :=
              m.errorEvents ++ ["Failed to initialize audio capture"] }) ∧
    (m.bIsRecording = false → m.StopRecording = m) ∧
    (m.bIsRecording = false → m.ValidateAudioSetup = true →
      m.StartRecording.bIsRecording = true ∧ m.StartRecording.AudioBuffer = []) := by
  refine ⟨?_, ?_, ?_, ?_⟩
  · intro h
    simp [UVoiceInputManager.StartRecording, h]
  · intro h hv
    simp [UVoiceInputManager.StartRecording, h, hv]
  · intro h
    simp [UVoiceInputManager.StopRecording, h]
  · intro h hv
    have hc : ∃ c, m.captureComponent = some c := by
      rcases hcc : m.captureComponent with _ | c
      · rw [UVoiceInputManager.ValidateAudioSetup, hcc] at hv
        simp at hv
      · exact ⟨c, rfl⟩
    obtain ⟨c, hcc⟩ := hc
    constructor <;>
      simp [UVoiceInputManager.StartRecording, h, hv,
        UVoiceInputManager.InitializeWebSocket, hcc]

/-- Witness for C6 at a concrete manager state with capture and audio
components present and recording off. -/
theorem claim_C6_witness :
    (UVoiceInputManager.StartRecording
      { bIsRecording := false, CurrentLanguage := "en-US"
        hasAudioComponent := true, captureComponent := some { capturing := false }
        webSocket := none, AudioBuffer := [7], errorEvents := []
        sentMessages := [] }).bIsRecording = true ∧
    (UVoiceInputManager.StartRecording
      { bIsRecording := false, CurrentLanguage := "en-US"
        hasAudioComponent := true, captureComponent := some { capturing := false }
        webSocket := none, AudioBuffer := [7], errorEvents := []
        sentMessages := [] }).AudioBuffer = [] :=
  (claim_C6_recording_guards
    { bIsRecording := false, CurrentLanguage := "en-US"
      hasAudioComponent := true, captureComponent := some { capturing := false }
      webSocket := none, AudioBuffer := [7], errorEvents := []
      sentMessages := [] }).2.2.2 rfl rfl

/-- C7: with the media player object initialized, `TogglePlayPause` flips
`bIsPlaying` and applying it twice restores the original value; with the
sound component set, `ToggleMute` flips `bIsMuted` and applying it twice
restores the original `bIsMuted` and the volume multiplier corresponding
to it (1.0 when unmuted, 0.0 when muted). -/
theorem claim_C7_toggle_involutive (w : UMediaPlayerWidget) :
    (w.mediaPlayer.isSome = true →
      w.TogglePlayPause.bIsPlaying = !w.bIsPlaying ∧
      w.TogglePlayPause.TogglePlayPause.bIsPlaying = w.bIsPlaying) ∧
    (w.soundComponent.isSome = true →
      w.ToggleMute.bIsMuted = !w.bIsMuted ∧
      w.ToggleMute.ToggleMute.bIsMuted = w.bIsMuted ∧
      ∃ s : MediaSoundComponent,
        w.ToggleMute.ToggleMute.soundComponent = some s ∧
        s.volumeMultiplier = if w.bIsMuted then 0 else 1) := by
  constructor
  · intro h
    rcases hp : w.mediaPlayer with _ | p
    · rw [hp] at h; simp at h
    · cases hb : w.bIsPlaying <;>
        simp [UMediaPlayerWidget.TogglePlayPause, UMediaPlayerWidget.Play,
          UMediaPlayerWidget.Pause, hp, hb]
  · intro h
    rcases hs : w.soundComponent with _ | s
    · rw [hs] at h; simp at h
    · cases hb : w.bIsMuted <;>
        simp [UMediaPlayerWidget.ToggleMute, hs, hb]

/-- Witness for C7 on a concrete widget with player and sound component
present, playing and unmuted. -/
theorem claim_C7_witness :
    (UMediaPlayerWidget.TogglePlayPause
        { mediaPlayer := some { playing := true }
          soundComponent := some { volumeMultiplier := 1 }
          bIsPlaying := true, bIsMuted := false, Duration := 10 }).bIsPlaying
      = !true ∧
    (UMediaPlayerWidget.TogglePlayPause (UMediaPlayerWidget.TogglePlayPause
        { mediaPlayer := some { playing := true }
          soundComponent := some { volumeMultiplier := 1 }
          bIsPlaying := true, bIsMuted := false, Duration := 10 })).bIsPlaying
      = true :=
  (claim_C7_toggle_involutive
    { mediaPlayer := some { playing := true }
      soundComponent := some { volumeMultiplier := 1 }
      bIsPlaying := true, bIsMuted := false, Duration := 10 }).1 rfl

lemma feedStep_const (w : UTimelineFeedWidget) (c : FeedCall) :
    (feedStep w c).hasFeedScrollBox = w.hasFeedScrollBox ∧
    (feedStep w c).hasDefaultFeedEntryClass = w.hasDefaultFeedEntryClass ∧
    (feedStep w c).hasBadgeEntryClass = w.hasBadgeEntryClass ∧
    (feedStep w c).MaxEntries = w.MaxEntries := by
  cases c <;>
    · refine ⟨?_, ?_, ?_, ?_⟩ <;>
      · unfold feedStep UTimelineFeedWidget.AddBadgeEntry
          UTimelineFeedWidget.AddFeedEntry UTimelineFeedWidget.TrimOldEntries
          UTimelineFeedWidget.ClearFeed
        repeat' split
        all_goals rfl

lemma trim_len_le (w : UTimelineFeedWidget) (h0 : 0 ≤ w.MaxEntries) :
    ((w.TrimOldEntries).FeedEntries.length : ℤ) ≤ w.MaxEntries := by
  unfold UTimelineFeedWidget.TrimOldEntries
  split
  case isTrue h =>
    simp only [List.length_drop]
    omega
  case isFalse h =>
    omega

lemma feedStep_len_le (w : UTimelineFeedWidget) (c : FeedCall)
    (h0 : 0 ≤ w.MaxEntries)
    (hlen : (w.FeedEntries.length : ℤ) ≤ w.MaxEntries) :
    ((feedStep w c).FeedEntries.length : ℤ) ≤ w.MaxEntries := by
  cases c with
  | addFeed e =>
      show ((w.AddFeedEntry e).FeedEntries.length : ℤ) ≤ w.MaxEntries
      unfold UTimelineFeedWidget.AddFeedEntry
      split
      · exact hlen
      · split
        · exact trim_len_le _ h0
        · exact hlen
  | addBadge b now =>
      show ((w.AddBadgeEntry b now).FeedEntries.length : ℤ) ≤ w.MaxEntries
      unfold UTimelineFeedWidget.AddBadgeEntry UTimelineFeedWidget.AddFeedEntry
      split
      · exact hlen
      · split
        · exact hlen
        · split
          · exact trim_len_le _ h0
          · exact hlen
  | clear =>
      show ((w.ClearFeed).FeedEntries.length : ℤ) ≤ w.MaxEntries
      unfold UTimelineFeedWidget.ClearFeed
      split
      · simpa using h0
      · exact hlen

lemma applyFeedCalls_len_le (calls : List FeedCall) (w : UTimelineFeedWidget)
    (h0 : 0 ≤ w.MaxEntries)
    (hlen : (w.FeedEntries.length : ℤ) ≤ w.MaxEntries) :
    ((applyFeedCalls w calls).FeedEntries.length : ℤ) ≤ w.MaxEntries := by
  induction calls generalizing w with
  | nil => exact hlen
  | cons c rest ih =>
      have hmax := (feedStep_const w c).2.2.2
      have := ih (feedStep w c) (hmax ▸ h0) (hmax ▸ feedStep_len_le w c h0 hlen)
      rw [hmax] at this
      exact this

lemma applyFeedCalls_no_scrollbox (calls : List FeedCall)
    (w : UTimelineFeedWidget) (h : w.hasFeedScrollBox = false) :
    applyFeedCalls w calls = w := by
  induction calls generalizing w with
  | nil => rfl
  | cons c rest ih =>
      have hstep : feedStep w c = w := by
        cases c with
        | addFeed e => simp [feedStep, UTimelineFeedWidget.AddFeedEntry, h]
        | addBadge b now =>
            simp [feedStep, UTimelineFeedWidget.AddBadgeEntry,
              UTimelineFeedWidget.AddFeedEntry, h]
        | clear => simp [feedStep, UTimelineFeedWidget.ClearFeed, h]
      show applyFeedCalls (feedStep w c) rest = w
      rw [hstep]
      exact ih w h

lemma applyFeedCalls_scrollbox (calls : List FeedCall)
    (w : UTimelineFeedWidget) :
    (applyFeedCalls w calls).hasFeedScrollBox = w.hasFeedScrollBox := by
  induction calls generalizing w with
  | nil => rfl
  | cons c rest ih =>
      show (applyFeedCalls (feedStep w c) rest).hasFeedScrollBox = _
      rw [ih (feedStep w c), (feedStep_const w c).1]

/-- C9: the timeline feed is bounded and first-in-first-out. After any
finite sequence of `AddFeedEntry` / `AddBadgeEntry` / `ClearFeed` calls
the stored entry list holds at most `MaxEntries` widgets; a successful
insertion drops exactly the excess entries from the front (the oldest);
and a sequence ending in `ClearFeed`, run from the constructed widget
(empty list), leaves the list empty. -/
theorem claim_C9_feed_bounded_fifo (w : UTimelineFeedWidget)
    (calls : List FeedCall) (h0 : 0 ≤ w.MaxEntries)
    (hlen : (w.FeedEntries.length : ℤ) ≤ w.MaxEntries) :
    ((applyFeedCalls w calls).FeedEntries.length : ℤ) ≤ w.MaxEntries ∧
    (∀ (v : UTimelineFeedWidget) (e ew : FFeedEntry),
      v.hasFeedScrollBox = true → v.CreateFeedEntryWidget e = some ew →
      (v.AddFeedEntry e).FeedEntries
        = (v.FeedEntries ++ [ew]).drop
            (((v.FeedEntries.length : ℤ) + 1 - v.MaxEntries).toNat)) ∧
    (w.FeedEntries = [] →
      (applyFeedCalls w (calls ++ [FeedCall.clear])).FeedEntries = []) := by
  refine ⟨applyFeedCalls_len_le calls w h0 hlen, ?_, ?_⟩
  · intro v e ew hsb hcw
    unfold UTimelineFeedWidget.AddFeedEntry
    rw [hsb, hcw]
    unfold UTimelineFeedWidget.TrimOldEntries
    simp only [Bool.not_true, Bool.false_eq_true, if_false]
    split
    case isTrue hgt =>
      simp only [List.length_append, List.length_cons, List.length_nil]
      norm_num
    case isFalse hle =>
      have hz : (((v.FeedEntries.length : ℤ) + 1 - v.MaxEntries)).toNat = 0 := by
        simp only [List.length_append, List.length_cons, List.length_nil] at hle
        omega
      rw [hz, List.drop_zero]
  · intro hempty
    unfold applyFeedCalls
    rw [List.foldl_append]
    cases hsb : w.hasFeedScrollBox
    · rw [show List.foldl feedStep w calls = applyFeedCalls w calls from rfl,
        applyFeedCalls_no_scrollbox calls w hsb]
      simp [feedStep, UTimelineFeedWidget.ClearFeed, hsb, hempty]
    · have := applyFeedCalls_scrollbox calls w
      rw [hsb] at this
      simp [List.foldl, feedStep, UTimelineFeedWidget.ClearFeed,
        show (List.foldl feedStep w calls).hasFeedScrollBox = true from this]

/-- Witness for C9: the constructed widget (bound 50) with two insertions
and then a clear. -/
theorem claim_C9_witness :
    ((applyFeedCalls (UTimelineFeedWidget.construct true true true)
        [FeedCall.addFeed
          { Title := "a", Subtitle := "", hasIcon := false, Timestamp := 0
            EntryType := "stat"
            BadgeData :=
              { BadgeID := "", Name := "", Description := "", hasIcon := false
                EarnedDate := "", BadgeColor := ⟨0, 0, 0, 1⟩ } }]).FeedEntries.length : ℤ)
      ≤ (UTimelineFeedWidget.construct true true true).MaxEntries ∧
    (applyFeedCalls (UTimelineFeedWidget.construct true true true)
        ([FeedCall.addFeed
          { Title := "a", Subtitle := "", hasIcon := false, Timestamp := 0
            EntryType := "stat"
            BadgeData :=
              { BadgeID := "", Name := "", Description := "", hasIcon := false
                EarnedDate := "", BadgeColor := ⟨0, 0, 0, 1⟩ } }] ++
          [FeedCall.clear])).FeedEntries = [] := by
  constructor
  · exact (claim_C9_feed_bounded_fifo (UTimelineFeedWidget.construct true true true)
      [FeedCall.addFeed
        { Title := "a", Subtitle := "", hasIcon := false, Timestamp := 0
          EntryType := "stat"
          BadgeData :=
            { BadgeID := "", Name := "", Description := "", hasIcon := false
              EarnedDate := "", BadgeColor := ⟨0, 0, 0, 1⟩ } }]
      (by norm_num [UTimelineFeedWidget.construct])
      (by norm_num [UTimelineFeedWidget.construct])).1
  · exact (claim_C9_feed_bounded_fifo (UTimelineFeedWidget.construct true true true)
      [FeedCall.addFeed
        { Title := "a", Subtitle := "", hasIcon := false, Timestamp := 0
          EntryType := "stat"
          BadgeData :=
            { BadgeID := "", Name := "", Description := "", hasIcon := false
              EarnedDate := "", BadgeColor := ⟨0, 0, 0, 1⟩ } }]
      (by norm_num [UTimelineFeedWidget.construct])
      (by norm_num [UTimelineFeedWidget.construct])).2.2 rfl

lemma setPercentArg_mem_unit (t : ℤ) (x : FFloat) :
    ∃ q : ℚ, setPercentArg t x = FFloat.fin q ∧ 0 ≤ q ∧ q ≤ 1 := by
  cases x with
  | nan => exact ⟨1, rfl, by norm_num⟩
  | inf s =>
      cases s <;>
        unfold setPercentArg FFloat.divInt FFloatClamp FFloat.flt <;>
        split_ifs <;>
        first
          | exact ⟨0, rfl, by norm_num⟩
          | exact ⟨1, rfl, by norm_num⟩
  | fin a =>
      by_cases ht : t = 0
      · by_cases ha : a = 0
        · exact ⟨1, by simp [setPercentArg, FFloat.divInt, FFloatClamp,
            FFloat.flt, ht, ha], by norm_num⟩
        · by_cases hpos : 0 < a
          · exact ⟨1, by simp [setPercentArg, FFloat.divInt, FFloatClamp,
              FFloat.flt, ht, ha, hpos], by norm_num⟩
          · exact ⟨0, by simp [setPercentArg, FFloat.divInt, FFloatClamp,
              FFloat.flt, ht, ha, hpos], by norm_num⟩
      · by_cases hlo : a / (t : ℚ) < 0
        · exact ⟨0, by simp [setPercentArg, FFloat.divInt, FFloatClamp,
            FFloat.flt, ht, hlo], by norm_num⟩
        · by_cases hhi : a / (t : ℚ) < 1
          · exact ⟨a / (t : ℚ), by simp [setPercentArg, FFloat.divInt,
              FFloatClamp, FFloat.flt, ht, hlo, hhi],
              by linarith [not_lt.mp hlo], le_of_lt hhi⟩
          · exact ⟨1, by simp [setPercentArg, FFloat.divInt, FFloatClamp,
              FFloat.flt, ht, hlo, hhi], by norm_num⟩

/-- C10: for every challenge accepted by `SetupChallenge` and every
subsequent `UpdateProgress` call, the value passed to the progress bar's
`SetPercent` lies in `[0, 1]`; in particular the ratio
`CurrentProgress / TargetProgress` is well defined (IEEE division) for
every challenge, including those whose `Target` is 0. -/
theorem claim_C10_progress_ratio_clamped (w : UChallengeCardWidget)
    (ChallengeData : FChallengeData) (NewProgress : FFloat) :
    (w.hasProgressBar = true →
      ∃ q : ℚ, (w.SetupChallenge ChallengeData).progressBarPercent
          = some (FFloat.fin q) ∧ 0 ≤ q ∧ q ≤ 1) ∧
    (w.hasProgressBar = true →
      ∃ q : ℚ, (w.UpdateProgress NewProgress).progressBarPercent
          = some (FFloat.fin q) ∧ 0 ≤ q ∧ q ≤ 1) := by
  constructor
  · intro h
    obtain ⟨q, hq, h0, h1⟩ :=
      setPercentArg_mem_unit ChallengeData.Target
        (FFloat.fin ChallengeData.CurrentProgress)
    exact ⟨q, by simp [UChallengeCardWidget.SetupChallenge,
      UChallengeCardWidget.UpdateProgress,
      UChallengeCardWidget.UpdateProgressDisplay, h, hq], h0, h1⟩
  · intro h
    obtain ⟨q, hq, h0, h1⟩ := setPercentArg_mem_unit w.TargetProgress NewProgress
    exact ⟨q, by simp [UChallengeCardWidget.UpdateProgress,
      UChallengeCardWidget.UpdateProgressDisplay, h, hq], h0, h1⟩

/-- Witness for C10 at a challenge whose `Target` is 0 (division by
zero hits the IEEE special-value path) with nonzero current progress. -/
theorem claim_C10_witness :
    ∃ q : ℚ,
      (UChallengeCardWidget.SetupChallenge
        { ChallengeId := "", TargetProgress := 1, hasProgressBar := true
          progressBarPercent := none, progressedEvents := [] }
        { Id := "c1", Title := "Score", Description := "", Difficulty := "easy"
          Target := 0, CurrentProgress := 5, XPReward := 10
          Category := "shooting" }).progressBarPercent
        = some (FFloat.fin q) ∧ 0 ≤ q ∧ q ≤ 1 :=
  (claim_C10_progress_ratio_clamped
    { ChallengeId := "", TargetProgress := 1, hasProgressBar := true
      progressBarPercent := none, progressedEvents := [] }
    { Id := "c1", Title := "Score", Description := "", Difficulty := "easy"
      Target := 0, CurrentProgress := 5, XPReward := 10
      Category := "shooting" } FFloat.nan).1 rfl

end SportBeacon
